import Mathlib

/-!
Verification development for the FreeFormAPI anti-automation session engine.

The definitions below are a shallow embedding of the TypeScript sources:
`session.service.ts` (session lifecycle and honeypot spam check),
`form.service.ts` (submission orchestration), `middleware/rate-limit.ts`
(fixed-window rate limiter), `utils/crypto.ts` (decoy field name derivation)
and `config.ts` (configuration defaults with no environment overrides).

The Redis session store is modelled as an association list from keys to
entries carrying the stored record together with the TTL last armed by
`setex`; store availability is an explicit boolean (`up`) and a store
outage reproduces each method's `try`/`catch` behaviour.  Submitted form
bodies are association lists from field names to string values (JS object
keys are unique; `Object.keys` order is insertion order, matched by the
list order).  Clock reads (`Date.now()`) are passed explicitly as `now`.
-/

set_option maxHeartbeats 1000000
set_option maxRecDepth 10000

namespace FreeForm

/-- Session record stored in Redis (`types/index.ts`, `SessionData`). -/
structure SessionData where
  honeypotField : String
  createdAt : Nat
  lastAccess : Option Nat := none
  used : Bool := false
  usedAt : Option Nat := none
  ip : Option String := none
  userAgent : Option String := none
  attempts : Nat := 0
deriving Repr, DecidableEq

/-- `config.ts` `SESSION_CONFIG` with no environment overrides:
`TTL = 600`, `MAX_ATTEMPTS = 5`; the key namespace is `"session:"`. -/
structure SessionConfig where
  TTL : Nat := 600
  MAX_ATTEMPTS : Nat := 5
deriving Repr, DecidableEq

def SESSION_CONFIG : SessionConfig := {}

/-- Redis key for a session id (`config.ts` SESSION key namespace). -/
def sessionKey (sessionId : String) : String := "session:" ++ sessionId

/-- One Redis value: the serialized record plus the TTL armed by `setex`. -/
structure SessionEntry where
  data : SessionData
  ttl : Nat
deriving Repr, DecidableEq

/-- The session store: Redis keyspace as an association list. -/
def Store := List (String × SessionEntry)
deriving DecidableEq

/-- `redis.setex key ttl value`: bind `k` to `e`, replacing any older binding. -/
def storeSet (st : Store) (k : String) (e : SessionEntry) : Store :=
  (k, e) :: List.filter (fun p => p.1 ≠ k) st

/-- `utils/crypto.ts` `generateHoneypotFieldName`: decoy name is the fixed
tag `"_hp_"` followed by the first 8 characters of the session id. -/
def generateHoneypotFieldName (sessionId : String) : String :=
  "_hp_" ++ sessionId.take 8

/-- Session issuance payload (`types/index.ts`, `NewSession`). -/
structure NewSession where
  sessionId : String
  honeypotField : String
  expiresIn : Nat
deriving Repr, DecidableEq

/-- `session.service.ts` `createSession`.  The cryptographically random id
drawn by `generateSessionId()` is passed in as `sessionId`; a store error
(`up = false`) propagates as a thrown error (`Except.error`). -/
def createSession (up : Bool) (sessionId : String) (now : Nat) (st : Store) :
    Except String (NewSession × Store) :=
  let honeypotField := generateHoneypotFieldName sessionId
  let sessionData : SessionData :=
    { honeypotField := honeypotField, createdAt := now, used := false, attempts := 0 }
  if up then
    Except.ok
      ({ sessionId := sessionId, honeypotField := honeypotField,
         expiresIn := SESSION_CONFIG.TTL },
       storeSet st (sessionKey sessionId)
         { data := sessionData, ttl := SESSION_CONFIG.TTL })
  else
    Except.error "Не удалось создать сессию"

/-- `session.service.ts` `getSession`: a miss or a store error yields `none`;
a hit refreshes `lastAccess` and re-arms the full TTL with `setex`. -/
def getSession (up : Bool) (sessionId : String) (now : Nat) (st : Store) :
    Option SessionData × Store :=
  if up then
    match List.lookup (sessionKey sessionId) st with
    | none => (none, st)
    | some e =>
      let session := { e.data with lastAccess := some now }
      (some session,
       storeSet st (sessionKey sessionId)
         { data := session, ttl := SESSION_CONFIG.TTL })
  else (none, st)

/-- `session.service.ts` `markSessionAsUsed`: absent record or store error
is a no-op; otherwise sets `used`, `usedAt`, `ip`, `userAgent` and re-arms
with the literal short TTL of 300 seconds. -/
def markSessionAsUsed (up : Bool) (sessionId ip userAgent : String) (now : Nat)
    (st : Store) : Store :=
  if up then
    match List.lookup (sessionKey sessionId) st with
    | none => st
    | some e =>
      let session :=
        { e.data with
          used := true
          usedAt := some now
          ip := some ip
          userAgent := some userAgent }
      storeSet st (sessionKey sessionId) { data := session, ttl := 300 }
  else st

/-- `session.service.ts` `incrementAttempts`: absent record or store error
is a no-op; otherwise bumps `attempts` and re-arms the full TTL. -/
def incrementAttempts (up : Bool) (sessionId : String) (st : Store) : Store :=
  if up then
    match List.lookup (sessionKey sessionId) st with
    | none => st
    | some e =>
      let session := { e.data with attempts := e.data.attempts + 1 }
      storeSet st (sessionKey sessionId)
        { data := session, ttl := SESSION_CONFIG.TTL }
  else st

/-- `session.service.ts` `deleteSession`: `redis.del`, errors swallowed. -/
def deleteSession (up : Bool) (sessionId : String) (st : Store) : Store :=
  if up then List.filter (fun p => p.1 ≠ sessionKey sessionId) st else st

/-- A submitted form body: field name to string value map. -/
def Body := List (String × String)

/-- JS `String.prototype.startsWith`: the tag is a prefix of the name.
Defined on the character lists so that it evaluates in the kernel. -/
def jsStartsWith (s tag : String) : Bool :=
  tag.data.isPrefixOf s.data

/-- JS `String.prototype.trim`: strip leading and trailing whitespace.
Defined on the character list so that it evaluates in the kernel. -/
def jsTrim (s : String) : String :=
  String.mk (((s.data.dropWhile Char.isWhitespace).reverse.dropWhile
    Char.isWhitespace).reverse)

/-- The JS test `body[f] && body[f].toString().trim() !== ''` on a string
field map: the field is present, truthy (non-empty) and non-blank. -/
def filledAt (body : Body) (field : String) : Bool :=
  match List.lookup field body with
  | some v => v ≠ "" && jsTrim v ≠ ""
  | none => false

/-- `session.service.ts` `checkHoneypotSpam`: the active decoy field first,
then every submitted field whose name carries the `"_hp_"` decoy tag. -/
def checkHoneypotSpam (body : Body) (session : SessionData) : Bool :=
  let currentHoneypot := session.honeypotField
  if filledAt body currentHoneypot then
    true
  else
    let allHoneypotFields :=
      List.filter (fun k => jsStartsWith k "_hp_") (body.map Prod.fst)
    allHoneypotFields.any (fun field => filledAt body field)

/-- Reason codes of `validateSession` (`code` strings in the source). -/
inductive SessionCode where
  | SESSION_REQUIRED
  | SESSION_INVALID
  | SESSION_USED
  | MAX_ATTEMPTS
deriving Repr, DecidableEq

/-- Result of `validateSession`. -/
structure ValidateResult where
  valid : Bool
  message : Option String := none
  code : Option SessionCode := none
deriving Repr, DecidableEq

/-- `session.service.ts` `validateSession`; `!sessionId` is the JS falsy
test, which for a string id means the empty string. -/
def validateSession (sessionId : String) (session : Option SessionData) :
    ValidateResult :=
  if sessionId = "" then
    { valid := false, message := some "ID сессии обязательно для заполнения",
      code := some .SESSION_REQUIRED }
  else
    match session with
    | none =>
      { valid := false, message := some "Недействительная или просроченная сессия",
        code := some .SESSION_INVALID }
    | some s =>
      if s.used then
        { valid := false, message := some "Эта форма уже была отправлена ранее",
          code := some .SESSION_USED }
      else if SESSION_CONFIG.MAX_ATTEMPTS ≤ s.attempts then
        { valid := false, message := some "Превышено максимальное количество попыток",
          code := some .MAX_ATTEMPTS }
      else
        { valid := true }

/-! ### Association-list store lemmas -/

theorem lookup_storeSet_self (st : Store) (k : String) (e : SessionEntry) :
    List.lookup k (storeSet st k e) = some e := by
  simp [storeSet, List.lookup]

theorem lookup_filter_ne (st : Store) (k k' : String) (h : k' ≠ k) :
    List.lookup k' (List.filter (fun p => p.1 ≠ k) st) = List.lookup k' st := by
  induction st with
  | nil => rfl
  | cons p rest ih =>
    obtain ⟨pk, pv⟩ := p
    by_cases hp : pk = k
    · subst hp
      have h1 : List.filter (fun p => decide (p.1 ≠ pk)) ((pk, pv) :: rest)
          = List.filter (fun p => decide (p.1 ≠ pk)) rest := by
        simp [List.filter_cons]
      rw [h1, ih]
      have h2 : (k' == pk) = false := beq_eq_false_iff_ne.mpr h
      simp [List.lookup, h2]
    · have h1 : List.filter (fun p => decide (p.1 ≠ k)) ((pk, pv) :: rest)
          = (pk, pv) :: List.filter (fun p => decide (p.1 ≠ k)) rest := by
        simp [List.filter_cons, hp]
      rw [h1]
      cases hkk : (k' == pk)
      · simp only [List.lookup, hkk]
        exact ih
      · simp only [List.lookup, hkk]

theorem lookup_storeSet_ne (st : Store) (k k' : String) (e : SessionEntry)
    (h : k' ≠ k) :
    List.lookup k' (storeSet st k e) = List.lookup k' st := by
  simp only [storeSet, List.lookup, beq_false_of_ne h]
  exact lookup_filter_ne st k k' h

/-! ### Spam detector (claim C2) -/

theorem filledAt_eq_true (body : Body) (f : String) :
    filledAt body f = true ↔
      ∃ v, List.lookup f body = some v ∧ jsTrim v ≠ "" := by
  unfold filledAt
  cases hl : List.lookup f body with
  | none => simp
  | some v =>
    simp only [Bool.and_eq_true, decide_eq_true_eq, ne_eq, Option.some.injEq]
    constructor
    · rintro ⟨_, h2⟩
      exact ⟨v, rfl, h2⟩
    · rintro ⟨w, hw, hne⟩
      cases hw
      refine ⟨fun hv => hne ?_, hne⟩
      rw [hv]
      decide

/-- C2: `checkHoneypotSpam` flags a submission as spam exactly when the
active decoy field carries a non-blank value, or some submitted field whose
name bears the `"_hp_"` decoy tag carries a non-blank value; its result
depends on no other field and it is a pure total function. -/
theorem checkHoneypotSpam_spec (body : Body) (session : SessionData) :
    checkHoneypotSpam body session = true ↔
      ((∃ v, List.lookup session.honeypotField body = some v ∧ jsTrim v ≠ "") ∨
       (∃ k, k ∈ body.map Prod.fst ∧ jsStartsWith k "_hp_" = true ∧
         ∃ v, List.lookup k body = some v ∧ jsTrim v ≠ "")) := by
  unfold checkHoneypotSpam
  by_cases h1 : filledAt body session.honeypotField = true
  · rw [if_pos h1]
    exact iff_of_true rfl (Or.inl ((filledAt_eq_true body _).mp h1))
  · rw [if_neg h1]
    rw [List.any_eq_true]
    constructor
    · rintro ⟨k, hk, hfill⟩
      have hk' := List.mem_filter.mp hk
      exact Or.inr ⟨k, hk'.1, by simpa using hk'.2,
        (filledAt_eq_true body k).mp hfill⟩
    · rintro (hcur | ⟨k, hkmem, hpre, hv⟩)
      · exact absurd ((filledAt_eq_true body _).mpr hcur) h1
      · exact ⟨k, List.mem_filter.mpr ⟨hkmem, by simpa using hpre⟩,
          (filledAt_eq_true body k).mpr hv⟩

/-! ### Session validation precedence (claim C1) -/

theorem validateSession_code_max (sessionId : String) (s : SessionData)
    (hid : sessionId ≠ "") (hu : s.used = false)
    (ha : SESSION_CONFIG.MAX_ATTEMPTS ≤ s.attempts) :
    (validateSession sessionId (some s)).code = some SessionCode.MAX_ATTEMPTS := by
  simp [validateSession, hid, hu, ha]

theorem lookup_incrementAttempts_self (st : Store) (sid : String)
    (e : SessionEntry) (h : List.lookup (sessionKey sid) st = some e) :
    List.lookup (sessionKey sid) (incrementAttempts true sid st) =
      some { data := { e.data with attempts := e.data.attempts + 1 },
             ttl := SESSION_CONFIG.TTL } := by
  simp only [incrementAttempts, if_true, h]
  exact lookup_storeSet_self ..

theorem incrementAttempts_iter (sid : String) (n : Nat) :
    ∀ (st : Store) (e : SessionEntry),
      List.lookup (sessionKey sid) st = some e →
      ∃ e', List.lookup (sessionKey sid)
              ((fun s => incrementAttempts true sid s)^[n] st) = some e' ∧
        e'.data.used = e.data.used ∧
        e'.data.attempts = e.data.attempts + n ∧
        e'.data.honeypotField = e.data.honeypotField := by
  induction n with
  | zero => exact fun st e h => ⟨e, h, rfl, rfl, rfl⟩
  | succ n ih =>
    intro st e h
    rw [Function.iterate_succ_apply]
    obtain ⟨e', hl, hu, ha, hh⟩ :=
      ih (incrementAttempts true sid st)
        { data := { e.data with attempts := e.data.attempts + 1 },
          ttl := SESSION_CONFIG.TTL }
        (lookup_incrementAttempts_self st sid e h)
    exact ⟨e', hl, hu, by simpa [Nat.add_assoc, Nat.add_comm 1 n] using ha, hh⟩

/-- C1: `validateSession` reasons are decided in the fixed precedence
required/invalid/used/max-attempts, each reason holding exactly when the
earlier ones do not and its own condition does; and after `MAX_ATTEMPTS`
(5) increments of a live session's counter it reports `MAX_ATTEMPTS`
even with `used = false`. -/
theorem validateSession_spec :
    (∀ (sessionId : String) (session : Option SessionData),
      ((validateSession sessionId session).code = some SessionCode.SESSION_REQUIRED
          ↔ sessionId = "") ∧
      ((validateSession sessionId session).code = some SessionCode.SESSION_INVALID
          ↔ sessionId ≠ "" ∧ session = none) ∧
      ((validateSession sessionId session).code = some SessionCode.SESSION_USED
          ↔ sessionId ≠ "" ∧ ∃ s, session = some s ∧ s.used = true) ∧
      ((validateSession sessionId session).code = some SessionCode.MAX_ATTEMPTS
          ↔ sessionId ≠ "" ∧ ∃ s, session = some s ∧ s.used = false ∧
              SESSION_CONFIG.MAX_ATTEMPTS ≤ s.attempts) ∧
      ((validateSession sessionId session).valid = true
          ↔ sessionId ≠ "" ∧ ∃ s, session = some s ∧ s.used = false ∧
              s.attempts < SESSION_CONFIG.MAX_ATTEMPTS)) ∧
    (∀ (st : Store) (sessionId : String) (e : SessionEntry),
      sessionId ≠ "" →
      List.lookup (sessionKey sessionId) st = some e →
      e.data.used = false →
      ∃ e', List.lookup (sessionKey sessionId)
              ((fun s => incrementAttempts true sessionId s)^[SESSION_CONFIG.MAX_ATTEMPTS] st)
            = some e' ∧
        e'.data.used = false ∧
        (validateSession sessionId (some e'.data)).code = some SessionCode.MAX_ATTEMPTS) := by
  constructor
  · intro sessionId session
    unfold validateSession
    by_cases hid : sessionId = ""
    · simp [hid]
    · cases session with
      | none => simp [hid]
      | some s =>
        cases hu : s.used with
        | true => simp [hid, hu]
        | false =>
          by_cases ha : SESSION_CONFIG.MAX_ATTEMPTS ≤ s.attempts
          · simp [hid, hu, ha, Nat.not_lt.mpr ha]
          · simp [hid, hu, ha, Nat.not_le.mp ha]
  · intro st sessionId e hid hl hu
    obtain ⟨e', hl', hu', ha', _⟩ :=
      incrementAttempts_iter sessionId SESSION_CONFIG.MAX_ATTEMPTS st e hl
    exact ⟨e', hl', by rw [hu', hu],
      validateSession_code_max _ _ hid (by rw [hu', hu]) (by rw [ha']; omega)⟩

def c1Entry : SessionEntry :=
  { data := { honeypotField := "_hp_ab", createdAt := 0, used := false,
              attempts := 0 },
    ttl := 600 }

def c1Store : Store := [(sessionKey "ab", c1Entry)]

theorem validateSession_spec_witness :
    ("ab" : String) ≠ "" ∧
    List.lookup (sessionKey "ab") c1Store = some c1Entry ∧
    c1Entry.data.used = false ∧
    (∃ e', List.lookup (sessionKey "ab")
            ((fun s => incrementAttempts true "ab" s)^[SESSION_CONFIG.MAX_ATTEMPTS] c1Store)
          = some e' ∧
      e'.data.used = false ∧
      (validateSession "ab" (some e'.data)).code = some SessionCode.MAX_ATTEMPTS) :=
  ⟨by decide, rfl, rfl,
   validateSession_spec.2 c1Store "ab" c1Entry (by decide) rfl rfl⟩

/-! ### Rate limiter (`middleware/rate-limit.ts`, claims C4, C5, C10) -/

/-- `config.ts` `RATE_LIMIT_CONFIG` with no environment overrides:
1-hour window, 100 requests, enabled. -/
structure RateLimitConfig where
  WINDOW_MS : Nat := 3600000
  MAX_REQUESTS : Nat := 100
  ENABLED : Bool := true
deriving Repr, DecidableEq

def RATE_LIMIT_CONFIG : RateLimitConfig := {}

/-- `config.ts` `SECURITY_CONFIG` with no environment overrides. -/
structure SecurityConfig where
  HONEYPOT_ENABLED : Bool := true
deriving Repr, DecidableEq

def SECURITY_CONFIG : SecurityConfig := {}

/-- `RateLimitMiddleware` options as resolved by its constructor
(defaults taken from `RATE_LIMIT_CONFIG`); `skip` is the value of
`options.skip(request)` for the request under consideration. -/
structure RateLimitOptions where
  windowMs : Nat := RATE_LIMIT_CONFIG.WINDOW_MS
  maxRequests : Nat := RATE_LIMIT_CONFIG.MAX_REQUESTS
  skip : Bool := false
deriving Repr, DecidableEq

def defaultOpts : RateLimitOptions := {}

/-- One client's `rate_limit:<ip>` Redis key: `count = none` while the key
is absent, `ttl = none` while the key carries no expiry (Redis TTL -1). -/
structure RLKeyState where
  count : Option Nat := none
  ttl : Option Nat := none
deriving Repr, DecidableEq

/-- A fresh client identity: no counter key. -/
def rlFresh : RLKeyState := {}

/-- Redis expiry of the window: when the armed TTL elapses the key is
deleted, so the identity's state returns to absent. -/
def rlExpire (_st : RLKeyState) : RLKeyState := { count := none, ttl := none }

/-- Outcome of the middleware for one request: pass through, or a 429
response carrying `resetIn` (the TTL read in the MULTI, in seconds)
followed by the rethrown `RATE_LIMIT_EXCEEDED` error. -/
inductive RLDecision where
  | allow
  | deny (resetIn : Int)
deriving Repr, DecidableEq

/-- `middleware/rate-limit.ts` `middleware()` for one request against one
client's key.  The `MULTI` (`incr` then `ttl`) is a single atomic unit:
`requestCount` is the incremented counter and `ttlVal` the key's TTL after
the `incr` (-1 when no expiry is armed).  A store outage (`up = false`)
makes `multi.exec` throw; the `catch` swallows everything except the
`RATE_LIMIT_EXCEEDED` marker, so the request passes. -/
def rateLimitStep (sec : SecurityConfig) (cfg : RateLimitConfig)
    (opts : RateLimitOptions) (up : Bool) (st : RLKeyState) :
    RLDecision × RLKeyState :=
  if !sec.HONEYPOT_ENABLED || !cfg.ENABLED then (.allow, st)
  else if opts.skip then (.allow, st)
  else if !up then (.allow, st)
  else
    let requestCount := (match st.count with | none => 0 | some c => c) + 1
    let ttlVal : Int := match st.ttl with | none => -1 | some t => (t : Int)
    let st1 : RLKeyState := { count := some requestCount, ttl := st.ttl }
    let st2 :=
      if requestCount = 1 ∧ ttlVal = -1 then
        { st1 with ttl := some (opts.windowMs / 1000) }
      else st1
    if requestCount > opts.maxRequests then
      (.deny ttlVal, st2)
    else
      (.allow, st2)

/-- `n` consecutive submissions from one client under default config. -/
def rlRun : Nat → RLKeyState → RLKeyState
  | 0, st => st
  | n + 1, st =>
    (rateLimitStep SECURITY_CONFIG RATE_LIMIT_CONFIG defaultOpts true
      (rlRun n st)).2

theorem ite_pair {A B : Type} (P : Prop) [Decidable P] (a b : A) (s : B) :
    (if P then (a, s) else (b, s)) = ((if P then a else b), s) := by
  split <;> rfl

theorem rateLimitStep_none_none :
    rateLimitStep SECURITY_CONFIG RATE_LIMIT_CONFIG defaultOpts true
        { count := none, ttl := none } =
      (RLDecision.allow, { count := some 1, ttl := some 3600 }) := by
  decide

theorem rateLimitStep_none_some (t : Nat) :
    rateLimitStep SECURITY_CONFIG RATE_LIMIT_CONFIG defaultOpts true
        { count := none, ttl := some t } =
      (RLDecision.allow, { count := some 1, ttl := some t }) := by
  unfold rateLimitStep
  rw [if_neg (by decide), if_neg (by decide), if_neg (by decide)]
  dsimp only
  rw [if_neg (show ¬ ((0 + 1 = 1) ∧ ((t : Int) = -1)) from by
    rintro ⟨-, h⟩; omega)]
  rw [if_neg (show ¬ (0 + 1 > defaultOpts.maxRequests) from by decide)]

theorem rateLimitStep_some_none (c : Nat) :
    rateLimitStep SECURITY_CONFIG RATE_LIMIT_CONFIG defaultOpts true
        { count := some c, ttl := none } =
      (if c + 1 > 100 then RLDecision.deny (-1) else RLDecision.allow,
       { count := some (c + 1),
         ttl := if c + 1 = 1 then some 3600 else none }) := by
  unfold rateLimitStep
  rw [if_neg (by decide), if_neg (by decide), if_neg (by decide)]
  dsimp only
  rw [show defaultOpts.maxRequests = 100 from rfl,
      show defaultOpts.windowMs = 3600000 from rfl,
      show (3600000 / 1000 : Nat) = 3600 from by decide]
  by_cases h : c + 1 = 1
  · rw [if_pos (show (c + 1 = 1) ∧ ((-1 : Int) = -1) from ⟨h, rfl⟩),
      if_pos h, ite_pair]
  · rw [if_neg (show ¬ ((c + 1 = 1) ∧ ((-1 : Int) = -1)) from fun hc => h hc.1),
      if_neg h, ite_pair]

theorem rateLimitStep_some_some (c t : Nat) :
    rateLimitStep SECURITY_CONFIG RATE_LIMIT_CONFIG defaultOpts true
        { count := some c, ttl := some t } =
      (if c + 1 > 100 then RLDecision.deny (t : Int) else RLDecision.allow,
       { count := some (c + 1), ttl := some t }) := by
  unfold rateLimitStep
  rw [if_neg (by decide), if_neg (by decide), if_neg (by decide)]
  dsimp only
  rw [show defaultOpts.maxRequests = 100 from rfl]
  rw [if_neg (show ¬ ((c + 1 = 1) ∧ ((t : Int) = -1)) from by
    rintro ⟨-, h⟩; omega)]
  rw [ite_pair]

theorem rlRun_fresh (n : Nat) :
    rlRun (n + 1) rlFresh = { count := some (n + 1), ttl := some 3600 } := by
  induction n with
  | zero =>
    show (rateLimitStep SECURITY_CONFIG RATE_LIMIT_CONFIG defaultOpts true
      rlFresh).2 = _
    rw [show rlFresh = { count := none, ttl := none } from rfl,
      rateLimitStep_none_none]
  | succ n ih =>
    show (rateLimitStep SECURITY_CONFIG RATE_LIMIT_CONFIG defaultOpts true
      (rlRun (n + 1) rlFresh)).2 = _
    rw [ih, rateLimitStep_some_some]

/-- C4: from a fresh identity, call `N <= 100` is allowed; call 101 inside
the window is denied with the armed window TTL (3600 s, positive) as the
reset time; the window TTL is armed exactly when the counter was just
created (`count == 1`) with no TTL present; and expiry of the window TTL
deletes the key, returning the identity to the fresh state. -/
theorem rate_limit_window_spec (n : Nat) (h1 : 1 ≤ n)
    (h2 : n ≤ RATE_LIMIT_CONFIG.MAX_REQUESTS) :
    (rateLimitStep SECURITY_CONFIG RATE_LIMIT_CONFIG defaultOpts true
        (rlRun (n - 1) rlFresh)).1 = RLDecision.allow ∧
    (rateLimitStep SECURITY_CONFIG RATE_LIMIT_CONFIG defaultOpts true
        (rlRun RATE_LIMIT_CONFIG.MAX_REQUESTS rlFresh)).1
      = RLDecision.deny ((RATE_LIMIT_CONFIG.WINDOW_MS / 1000 : Nat) : Int) ∧
    (0 : Int) < ((RATE_LIMIT_CONFIG.WINDOW_MS / 1000 : Nat) : Int) ∧
    (∀ st : RLKeyState,
      (rateLimitStep SECURITY_CONFIG RATE_LIMIT_CONFIG defaultOpts true st).2.ttl
        = (if st.count.getD 0 + 1 = 1 ∧ st.ttl = none
            then some (defaultOpts.windowMs / 1000) else st.ttl)) ∧
    (∀ st : RLKeyState, rlExpire st = rlFresh) := by
  have h2' : n ≤ 100 := h2
  refine ⟨?_, ?_, by decide, ?_, fun _ => rfl⟩
  · obtain ⟨m, rfl⟩ : ∃ m, n = m + 1 := ⟨n - 1, by omega⟩
    cases m with
    | zero =>
      show (rateLimitStep SECURITY_CONFIG RATE_LIMIT_CONFIG defaultOpts true
        rlFresh).1 = RLDecision.allow
      rw [show rlFresh = { count := none, ttl := none } from rfl,
        rateLimitStep_none_none]
    | succ m =>
      have hm : m + 1 + 1 - 1 = m + 1 := by omega
      rw [hm, rlRun_fresh, rateLimitStep_some_some]
      rw [if_neg (by omega)]
  · rw [show RATE_LIMIT_CONFIG.MAX_REQUESTS = 99 + 1 from rfl, rlRun_fresh,
      rateLimitStep_some_some, if_pos (by omega)]
    decide
  · intro st
    obtain ⟨cnt, tl⟩ := st
    cases cnt with
    | none =>
      cases tl with
      | none =>
        rw [rateLimitStep_none_none]
        decide
      | some t =>
        rw [rateLimitStep_none_some]
        simp
    | some c =>
      cases tl with
      | none =>
        rw [rateLimitStep_some_none]
        dsimp only
        simp only [Option.getD_some, and_true]
        rw [show defaultOpts.windowMs / 1000 = 3600 from by decide]
      | some t =>
        rw [rateLimitStep_some_some]
        simp

theorem rate_limit_window_spec_witness :
    (1 : Nat) ≤ 1 ∧ (1 : Nat) ≤ RATE_LIMIT_CONFIG.MAX_REQUESTS ∧
    (rateLimitStep SECURITY_CONFIG RATE_LIMIT_CONFIG defaultOpts true
        (rlRun (1 - 1) rlFresh)).1 = RLDecision.allow :=
  ⟨by decide, by decide,
   (rate_limit_window_spec 1 (by decide) (by decide)).1⟩

/-- C5: when the backing store is unreachable the limiter fails open — the
request is allowed and no counter state changes, for every configuration
and every prior key state. -/
theorem rate_limit_fail_open (sec : SecurityConfig) (cfg : RateLimitConfig)
    (opts : RateLimitOptions) (st : RLKeyState) :
    rateLimitStep sec cfg opts false st = (RLDecision.allow, st) := by
  unfold rateLimitStep
  split
  · rfl
  · split
    · rfl
    · rfl

/-- C10: with `HONEYPOT_ENABLED = false` the middleware returns before
touching the counter — the request is allowed and the key state is
untouched — even with `RATE_LIMIT_CONFIG.ENABLED = true`. -/
theorem rate_limit_disabled_by_honeypot_flag (cfg : RateLimitConfig)
    (opts : RateLimitOptions) (up : Bool) (st : RLKeyState) :
    rateLimitStep { HONEYPOT_ENABLED := false } { cfg with ENABLED := true }
        opts up st = (RLDecision.allow, st) := rfl

/-! ### Submission orchestrator (`form.service.ts`, claim C3) -/

/-- JS `a || d` on an optional string: the fallback replaces an absent or
empty (falsy) value. -/
def jsOr (v : Option String) (d : String) : String :=
  match v with
  | some s => if s = "" then d else s
  | none => d

/-- A row of the `form_submissions` table as returned by the INSERT in
`database.service.ts` `saveFormSubmission`.  The JSON `metadata` blob
(session id, decoy field name, detection details, timestamps) is not
modelled: no claim mentions it. -/
structure FormSubmission where
  id : Nat
  form_id : String
  email : String
  message : Option String
  ip_address : String
  user_agent : String
  is_spam : Bool
  status : String
deriving Repr, DecidableEq

/-- `database.service.ts` `FormSubmissionData`. -/
structure FormSubmissionData where
  formId : String
  email : String
  message : Option String := none
  ipAddress : String
  userAgent : String
  isSpam : Bool
  status : Option String := none
deriving Repr, DecidableEq

/-- `database.service.ts` `saveFormSubmission`: append the row (ids issued
sequentially by the database); `message || null` nulls out a falsy value;
`status` defaults to `'pending'`.  The database is taken as reachable:
no claim concerns its failure path. -/
def saveFormSubmission (db : List FormSubmission) (nextId : Nat)
    (data : FormSubmissionData) : FormSubmission × List FormSubmission :=
  let submission : FormSubmission := {
    id := nextId
    form_id := data.formId
    email := data.email
    message := match data.message with
               | some m => if m = "" then none else some m
               | none => none
    ip_address := data.ipAddress
    user_agent := data.userAgent
    is_spam := data.isSpam
    status := (data.status).getD "pending" }
  (submission, db ++ [submission])

/-- `database.service.ts` `saveSpamSubmission`: delegates to
`saveFormSubmission` forcing `isSpam = true` and `status = 'blocked'`. -/
def saveSpamSubmission (db : List FormSubmission) (nextId : Nat)
    (data : FormSubmissionData) : FormSubmission × List FormSubmission :=
  saveFormSubmission db nextId
    { data with isSpam := true, status := some "blocked" }

/-- The result of `FormService.validateFormData` (field/message pairs). -/
structure ValidationResult where
  success : Bool
  errors : List (String × String) := []
deriving Repr, DecidableEq

/-- JS `!v || v.trim() === ''`: absent, empty or blank. -/
def requiredOrBlank (v : Option String) : Bool :=
  match v with
  | none => true
  | some s => s = "" || jsTrim s = ""

/-- Split a character list at every occurrence of `c`. -/
def splitOnChar : List Char → Char → List (List Char)
  | [], _ => [[]]
  | x :: xs, c =>
    if x = c then [] :: splitOnChar xs c
    else
      match splitOnChar xs c with
      | [] => [[x]]
      | h :: t => (x :: h) :: t

/-- The email test regex of `validateFormData`:
`^[^\s@]+@[^\s@]+\.[^\s@]+$` — exactly one `@`; a non-empty,
whitespace-free local part; a non-empty, whitespace-free domain containing
a dot that is neither its first nor its last character. -/
def emailRegexTest (s : String) : Bool :=
  match splitOnChar s.data '@' with
  | [a, b] =>
    !a.isEmpty && a.all (fun ch => !ch.isWhitespace) &&
    !b.isEmpty && b.all (fun ch => !ch.isWhitespace) &&
    ((b.drop 1).dropLast.contains '.')
  | _ => false

/-- `form.service.ts` `validateFormData`: errors accumulated in source
order over formId, email, message, `_sessionId` and the session's decoy
field (which must be blank). -/
def validateFormData (data : Body) (session : SessionData) : ValidationResult :=
  let errors :=
    (let f := List.lookup "formId" data
     if requiredOrBlank f then
       [("formId", "ID формы обязательно для заполнения")]
     else if (f.getD "").length > 100 then
       [("formId", "ID формы не может превышать 100 символов")]
     else [])
    ++
    (let em := List.lookup "email" data
     if requiredOrBlank em then
       [("email", "Email обязательно для заполнения")]
     else if !emailRegexTest (em.getD "") then
       [("email", "Неверный формат email адреса")]
     else if (em.getD "").length > 255 then
       [("email", "Email не может превышать 255 символов")]
     else [])
    ++
    (match List.lookup "message" data with
     | some m =>
       if m ≠ "" && m.length > 5000 then
         [("message", "Сообщение не может превышать 5000 символов")]
       else []
     | none => [])
    ++
    (let sid := List.lookup "_sessionId" data
     if requiredOrBlank sid then
       [("_sessionId", "ID сессии обязательно для заполнения")]
     else if (sid.getD "").length > 100 then
       [("_sessionId", "ID сессии не может превышать 100 символов")]
     else [])
    ++
    (if filledAt data session.honeypotField then
       [(session.honeypotField, "Это поле должно быть пустым")]
     else [])
  { success := errors.isEmpty, errors := errors }

/-- `FormSubmitResult` of `form.service.ts` (`createdAt` elided: it is the
database row timestamp, mentioned by no claim). -/
structure FormSubmitResult where
  success : Bool
  message : String
  submissionId : Option Nat := none
  errors : List (String × String) := []
  isSpam : Option Bool := none
deriving Repr, DecidableEq

/-- The mutable world `submitForm` touches: the Redis session keyspace and
the `form_submissions` table with its id sequence. -/
structure AppState where
  sessions : Store
  db : List FormSubmission
  nextId : Nat

/-- `form.service.ts` `FormService.submitForm`: get and validate the
session (recording a failed attempt on invalid), run the honeypot check
when enabled — on spam, store the record as spam, consume the session and
return a fake success — otherwise validate the fields and store the
legitimate submission.  The `none` branch of the match mirrors the
source's `session!` non-null assertion: validation success implies a
record is present, so it is unreachable. -/
def submitForm (sec : SecurityConfig) (req : Body)
    (clientIp userAgent : String) (now : Nat) (st : AppState) :
    FormSubmitResult × AppState :=
  let sessionId := (List.lookup "_sessionId" req).getD ""
  let got := getSession true sessionId now st.sessions
  let session := got.1
  let sessions1 := got.2
  let v := validateSession sessionId session
  if v.valid = false then
    let sessions2 := incrementAttempts true sessionId sessions1
    ({ success := false
       message := (v.message).getD "Ошибка сессии"
       errors := [("_sessionId", (v.message).getD "Ошибка сессии")] },
     { st with sessions := sessions2 })
  else
    match session with
    | none =>
      ({ success := false, message := "Ошибка сессии" },
       { st with sessions := sessions1 })
    | some s =>
      if sec.HONEYPOT_ENABLED && checkHoneypotSpam req s then
        let spamData : FormSubmissionData := {
          formId := jsOr (List.lookup "formId" req) "unknown"
          email := jsOr (List.lookup "email" req) "spam@example.com"
          message := some (jsOr (List.lookup "message" req)
            "[BOT - honeypot защита сработала]")
          ipAddress := clientIp
          userAgent := userAgent
          isSpam := true }
        let saved := saveSpamSubmission st.db st.nextId spamData
        let sessions2 :=
          markSessionAsUsed true sessionId clientIp userAgent now sessions1
        ({ success := true
           message := "Форма успешно отправлена!"
           submissionId := some saved.1.id
           isSpam := some true },
         { sessions := sessions2, db := saved.2, nextId := st.nextId + 1 })
      else
        let validation := validateFormData req s
        if validation.success = false then
          let sessions2 := incrementAttempts true sessionId sessions1
          ({ success := false
             message := "Ошибка валидации данных"
             errors := validation.errors },
           { st with sessions := sessions2 })
        else
          let sessions2 :=
            markSessionAsUsed true sessionId clientIp userAgent now sessions1
          let formData : FormSubmissionData := {
            formId := (List.lookup "formId" req).getD ""
            email := (List.lookup "email" req).getD ""
            message := List.lookup "message" req
            ipAddress := clientIp
            userAgent := userAgent
            isSpam := false
            status := some "pending" }
          let saved := saveFormSubmission st.db st.nextId formData
          ({ success := true
             message := "Форма успешно отправлена и сохранена!"
             submissionId := some saved.1.id },
           { sessions := sessions2, db := saved.2, nextId := st.nextId + 1 })

/-! ### Evaluation lemmas for the lifecycle operations -/

theorem getSession_found (sid : String) (now : Nat) (st : Store)
    (e : SessionEntry) (h : List.lookup (sessionKey sid) st = some e) :
    getSession true sid now st =
      (some { e.data with lastAccess := some now },
       storeSet st (sessionKey sid)
         { data := { e.data with lastAccess := some now },
           ttl := SESSION_CONFIG.TTL }) := by
  simp [getSession, h]

theorem markSessionAsUsed_found (sid ip ua : String) (now : Nat) (st : Store)
    (e : SessionEntry) (h : List.lookup (sessionKey sid) st = some e) :
    markSessionAsUsed true sid ip ua now st =
      storeSet st (sessionKey sid)
        { data := { e.data with
            used := true
            usedAt := some now
            ip := some ip
            userAgent := some ua }
          ttl := 300 } := by
  simp [markSessionAsUsed, h]

theorem validateSession_valid (sessionId : String) (s : SessionData)
    (hid : sessionId ≠ "") (hu : s.used = false)
    (ha : s.attempts < SESSION_CONFIG.MAX_ATTEMPTS) :
    validateSession sessionId (some s) = { valid := true } := by
  simp [validateSession, hid, hu, Nat.not_le.mpr ha]

theorem checkHoneypotSpam_update (body : Body) (s : SessionData)
    (x : Option Nat) :
    checkHoneypotSpam body { s with lastAccess := x }
      = checkHoneypotSpam body s := rfl

/-- C3: with honeypot protection enabled, a submission whose session
validates and which the honeypot check classifies as spam is stored as
spam (`is_spam = true`, `status = 'blocked'`), consumes the session
(`used = true` with the short TTL), and still reports `success = true`
to the submitter, the spam classification carried only internally. -/
theorem submitForm_spam_path (req : Body) (clientIp userAgent : String)
    (now : Nat) (st : AppState) (sid : String) (e : SessionEntry)
    (hsid : List.lookup "_sessionId" req = some sid)
    (hne : sid ≠ "")
    (hlook : List.lookup (sessionKey sid) st.sessions = some e)
    (hused : e.data.used = false)
    (hatt : e.data.attempts < SESSION_CONFIG.MAX_ATTEMPTS)
    (hspam : checkHoneypotSpam req e.data = true) :
    (submitForm SECURITY_CONFIG req clientIp userAgent now st).1.success = true ∧
    (submitForm SECURITY_CONFIG req clientIp userAgent now st).1.isSpam
      = some true ∧
    (∃ sub, (submitForm SECURITY_CONFIG req clientIp userAgent now st).2.db
        = st.db ++ [sub] ∧ sub.is_spam = true ∧ sub.status = "blocked") ∧
    (∃ e', List.lookup (sessionKey sid)
        (submitForm SECURITY_CONFIG req clientIp userAgent now st).2.sessions
          = some e' ∧
      e'.data.used = true ∧ e'.ttl = 300) := by
  have hvalid : validateSession sid
      (some { e.data with lastAccess := some now }) = { valid := true } :=
    validateSession_valid sid _ hne hused hatt
  have hsp : checkHoneypotSpam req { e.data with lastAccess := some now }
      = true := by
    rw [checkHoneypotSpam_update]; exact hspam
  unfold submitForm
  rw [hsid]
  simp only [Option.getD_some]
  rw [getSession_found sid now st.sessions e hlook]
  dsimp only
  rw [hvalid]
  rw [if_neg (show ¬ (({ valid := true } : ValidateResult).valid = false)
    from by decide)]
  rw [if_pos (show (SECURITY_CONFIG.HONEYPOT_ENABLED &&
      checkHoneypotSpam req { e.data with lastAccess := some now }) = true
    from by rw [hsp]; rfl)]
  dsimp only [saveSpamSubmission, saveFormSubmission]
  rw [markSessionAsUsed_found sid clientIp userAgent now _ _
    (lookup_storeSet_self st.sessions (sessionKey sid) _)]
  refine ⟨rfl, rfl, ⟨_, rfl, rfl, rfl⟩,
    ⟨_, lookup_storeSet_self _ _ _, rfl, rfl⟩⟩

def c3Req : Body :=
  [("formId", "contact"), ("email", "bot@example.com"),
   ("_sessionId", "abc123"), ("_hp_abc123", "gotcha")]

def c3Entry : SessionEntry :=
  { data := { honeypotField := "_hp_abc123", createdAt := 0, used := false,
              attempts := 0 },
    ttl := 600 }

def c3State : AppState :=
  { sessions := [(sessionKey "abc123", c3Entry)], db := [], nextId := 1 }

theorem submitForm_spam_path_witness :
    ("abc123" : String) ≠ "" ∧
    checkHoneypotSpam c3Req c3Entry.data = true ∧
    (submitForm SECURITY_CONFIG c3Req "1.2.3.4" "UA" 5 c3State).1.success
      = true ∧
    (submitForm SECURITY_CONFIG c3Req "1.2.3.4" "UA" 5 c3State).1.isSpam
      = some true :=
  let h := submitForm_spam_path c3Req "1.2.3.4" "UA" 5 c3State "abc123"
    c3Entry rfl (by decide) rfl rfl (by decide) (by decide)
  ⟨by decide, by decide, h.1, h.2.1⟩

/-! ### Failure semantics and lifecycle invariants (claims C6, C7, C8, C9) -/

theorem getSession_missing (sid : String) (now : Nat) (st : Store)
    (h : List.lookup (sessionKey sid) st = none) :
    getSession true sid now st = (none, st) := by
  simp [getSession, h]

theorem markSessionAsUsed_missing (sid ip ua : String) (now : Nat)
    (st : Store) (h : List.lookup (sessionKey sid) st = none) :
    markSessionAsUsed true sid ip ua now st = st := by
  simp [markSessionAsUsed, h]

theorem incrementAttempts_missing (sid : String) (st : Store)
    (h : List.lookup (sessionKey sid) st = none) :
    incrementAttempts true sid st = st := by
  simp [incrementAttempts, h]

theorem incrementAttempts_found (sid : String) (st : Store) (e : SessionEntry)
    (h : List.lookup (sessionKey sid) st = some e) :
    incrementAttempts true sid st =
      storeSet st (sessionKey sid)
        { data := { e.data with attempts := e.data.attempts + 1 },
          ttl := SESSION_CONFIG.TTL } := by
  simp [incrementAttempts, h]

/-- C6: a backing-store outage makes `createSession` throw (the error
propagates to its caller), while `getSession` degrades to an absent
result and `markSessionAsUsed`, `incrementAttempts` and `deleteSession`
degrade to no-ops; these four are total functions of the store state and
never propagate the error. -/
theorem store_outage_semantics (sid ip ua : String) (now : Nat) (st : Store) :
    createSession false sid now st
      = Except.error "Не удалось создать сессию" ∧
    getSession false sid now st = (none, st) ∧
    markSessionAsUsed false sid ip ua now st = st ∧
    incrementAttempts false sid st = st ∧
    deleteSession false sid st = st :=
  ⟨rfl, rfl, rfl, rfl, rfl⟩

def c7Entry : SessionEntry :=
  { data := { honeypotField := "_hp_s1", createdAt := 0, lastAccess := none,
              used := true, usedAt := some 10, ip := some "9.9.9.9",
              userAgent := some "UA", attempts := 0 },
    ttl := 300 }

def c7Store : Store := [(sessionKey "s1", c7Entry)]

/-- C7 counterexample: a session already marked used, retained with the
short 300 s lifetime, is re-armed to the full 600 s TTL by a subsequent
`getSession` read — contradicting the claim that the sliding expiry
applies only while the session is unused. -/
theorem getSession_used_reextends_ttl :
    c7Entry.data.used = true ∧ c7Entry.ttl = 300 ∧
    ∃ e', List.lookup (sessionKey "s1") (getSession true "s1" 20 c7Store).2
        = some e' ∧
      e'.data.used = true ∧ e'.ttl = SESSION_CONFIG.TTL ∧
      c7Entry.ttl < e'.ttl := by
  refine ⟨rfl, rfl, ?_⟩
  rw [getSession_found "s1" 20 c7Store c7Entry rfl]
  exact ⟨_, lookup_storeSet_self _ _ _, rfl, rfl, by decide⟩

/-- C7 amended: every successful `getSession` refreshes `lastAccessAt`
and re-arms the full TTL unconditionally — including for sessions
already marked used, whose shortened remaining lifetime is thereby
re-extended to the full TTL. -/
theorem getSession_refreshes_spec (sid : String) (now : Nat) (st : Store)
    (e : SessionEntry) (h : List.lookup (sessionKey sid) st = some e) :
    (getSession true sid now st).1
      = some { e.data with lastAccess := some now } ∧
    List.lookup (sessionKey sid) (getSession true sid now st).2 =
      some { data := { e.data with lastAccess := some now },
             ttl := SESSION_CONFIG.TTL } := by
  rw [getSession_found sid now st e h]
  exact ⟨rfl, lookup_storeSet_self _ _ _⟩

theorem getSession_refreshes_spec_witness :
    List.lookup (sessionKey "s1") c7Store = some c7Entry ∧
    ((getSession true "s1" 20 c7Store).1
        = some { c7Entry.data with lastAccess := some 20 } ∧
     List.lookup (sessionKey "s1") (getSession true "s1" 20 c7Store).2 =
       some { data := { c7Entry.data with lastAccess := some 20 },
              ttl := SESSION_CONFIG.TTL }) :=
  ⟨rfl, getSession_refreshes_spec "s1" 20 c7Store c7Entry rfl⟩

/-- C8: `markSessionAsUsed` on an existing record sets `used = true`,
records `usedAt` and captures the client ip and user agent at that
moment, re-arming the record with the short TTL of 300 seconds, strictly
below the full session TTL (600 s by default); on an absent record it is
a no-op. -/
theorem markSessionAsUsed_spec (sid ip ua : String) (now : Nat) (st : Store) :
    (∀ e, List.lookup (sessionKey sid) st = some e →
      List.lookup (sessionKey sid) (markSessionAsUsed true sid ip ua now st)
        = some
            { data := { e.data with
                used := true
                usedAt := some now
                ip := some ip
                userAgent := some ua }
              ttl := 300 } ∧
      (300 : Nat) < SESSION_CONFIG.TTL) ∧
    (List.lookup (sessionKey sid) st = none →
      markSessionAsUsed true sid ip ua now st = st) := by
  constructor
  · intro e h
    rw [markSessionAsUsed_found sid ip ua now st e h]
    exact ⟨lookup_storeSet_self _ _ _, by decide⟩
  · intro h
    exact markSessionAsUsed_missing sid ip ua now st h

def c8Entry : SessionEntry :=
  { data := { honeypotField := "_hp_cc", createdAt := 0, used := false,
              attempts := 1 },
    ttl := 600 }

def c8Store : Store := [(sessionKey "cc", c8Entry)]

theorem markSessionAsUsed_spec_witness :
    List.lookup (sessionKey "cc") c8Store = some c8Entry ∧
    (List.lookup (sessionKey "cc")
        (markSessionAsUsed true "cc" "7.7.7.7" "UA" 42 c8Store)
      = some
          { data := { c8Entry.data with
              used := true
              usedAt := some 42
              ip := some "7.7.7.7"
              userAgent := some "UA" }
            ttl := 300 } ∧
     (300 : Nat) < SESSION_CONFIG.TTL) :=
  ⟨rfl, (markSessionAsUsed_spec "cc" "7.7.7.7" "UA" 42 c8Store).1 c8Entry rfl⟩

/-! ### Lifecycle state machine (claim C9) -/

/-- One lifecycle operation against the live store: `createSession` (the
random id passed explicitly), `getSession`, `markSessionAsUsed`,
`incrementAttempts`. -/
inductive SessionOp where
  | create (sessionId : String) (now : Nat)
  | get (sessionId : String) (now : Nat)
  | markUsed (sessionId ip userAgent : String) (now : Nat)
  | incr (sessionId : String)

/-- The store after an operation (return values discarded). -/
def applyOp (op : SessionOp) (st : Store) : Store :=
  match op with
  | .create sid now =>
    match createSession true sid now st with
    | .ok r => r.2
    | .error _ => st
  | .get sid now => (getSession true sid now st).2
  | .markUsed sid ip ua now => markSessionAsUsed true sid ip ua now st
  | .incr sid => incrementAttempts true sid st

def applyOps (ops : List SessionOp) (st : Store) : Store :=
  match ops with
  | [] => st
  | op :: rest => applyOps rest (applyOp op st)

/-- Every `createSession` in the sequence draws a fresh identifier — the
collision-freedom the 128-bit random session ids provide. -/
def FreshCreates : List SessionOp → Store → Prop
  | [], _ => True
  | op :: rest, st =>
    (match op with
     | .create sid _ => List.lookup (sessionKey sid) st = none
     | _ => True) ∧ FreshCreates rest (applyOp op st)

theorem applyOp_mono (op : SessionOp) (st : Store)
    (hfresh : ∀ sid now, op = SessionOp.create sid now →
      List.lookup (sessionKey sid) st = none)
    (k : String) (e : SessionEntry) (h : List.lookup k st = some e) :
    ∃ e₂, List.lookup k (applyOp op st) = some e₂ ∧
      (e.data.used = true → e₂.data.used = true) ∧
      e.data.attempts ≤ e₂.data.attempts := by
  cases op with
  | create sid now =>
    have hk : k ≠ sessionKey sid := by
      intro hkk
      rw [hkk, hfresh sid now rfl] at h
      exact Option.noConfusion h
    refine ⟨e, ?_, fun hu => hu, Nat.le_refl _⟩
    show List.lookup k (storeSet st (sessionKey sid)
      { data := { honeypotField := generateHoneypotFieldName sid,
                  createdAt := now, used := false, attempts := 0 },
        ttl := SESSION_CONFIG.TTL }) = some e
    rw [lookup_storeSet_ne st _ k _ hk]
    exact h
  | get sid now =>
    by_cases hk : k = sessionKey sid
    · subst hk
      refine ⟨{ data := { e.data with lastAccess := some now }
                ttl := SESSION_CONFIG.TTL },
        ?_, fun hu => hu, Nat.le_refl _⟩
      show List.lookup (sessionKey sid) (getSession true sid now st).2 = _
      rw [getSession_found sid now st e h]
      exact lookup_storeSet_self _ _ _
    · cases hlk : List.lookup (sessionKey sid) st with
      | none =>
        refine ⟨e, ?_, fun hu => hu, Nat.le_refl _⟩
        show List.lookup k (getSession true sid now st).2 = some e
        rw [getSession_missing sid now st hlk]
        exact h
      | some e1 =>
        refine ⟨e, ?_, fun hu => hu, Nat.le_refl _⟩
        show List.lookup k (getSession true sid now st).2 = some e
        rw [getSession_found sid now st e1 hlk,
          lookup_storeSet_ne _ _ _ _ hk]
        exact h
  | markUsed sid ip ua now =>
    by_cases hk : k = sessionKey sid
    · subst hk
      refine ⟨{ data := { e.data with
                  used := true
                  usedAt := some now
                  ip := some ip
                  userAgent := some ua }
                ttl := 300 },
        ?_, fun _ => rfl, Nat.le_refl _⟩
      show List.lookup (sessionKey sid)
        (markSessionAsUsed true sid ip ua now st) = _
      rw [markSessionAsUsed_found sid ip ua now st e h]
      exact lookup_storeSet_self _ _ _
    · cases hlk : List.lookup (sessionKey sid) st with
      | none =>
        refine ⟨e, ?_, fun hu => hu, Nat.le_refl _⟩
        show List.lookup k (markSessionAsUsed true sid ip ua now st) = some e
        rw [markSessionAsUsed_missing sid ip ua now st hlk]
        exact h
      | some e1 =>
        refine ⟨e, ?_, fun hu => hu, Nat.le_refl _⟩
        show List.lookup k (markSessionAsUsed true sid ip ua now st) = some e
        rw [markSessionAsUsed_found sid ip ua now st e1 hlk,
          lookup_storeSet_ne _ _ _ _ hk]
        exact h
  | incr sid =>
    by_cases hk : k = sessionKey sid
    · subst hk
      refine ⟨{ data := { e.data with attempts := e.data.attempts + 1 }
                ttl := SESSION_CONFIG.TTL },
        ?_, fun hu => hu, Nat.le_succ _⟩
      exact lookup_incrementAttempts_self st sid e h
    · cases hlk : List.lookup (sessionKey sid) st with
      | none =>
        refine ⟨e, ?_, fun hu => hu, Nat.le_refl _⟩
        show List.lookup k (incrementAttempts true sid st) = some e
        rw [incrementAttempts_missing sid st hlk]
        exact h
      | some e1 =>
        refine ⟨e, ?_, fun hu => hu, Nat.le_refl _⟩
        show List.lookup k (incrementAttempts true sid st) = some e
        rw [incrementAttempts_found sid st e1 hlk,
          lookup_storeSet_ne _ _ _ _ hk]
        exact h

/-- C9: across every sequence of lifecycle operations (`createSession`
with fresh random ids, `getSession`, `markSessionAsUsed`,
`incrementAttempts`), a stored record's `used` flag only ever moves from
false to true — it is never reset — and its `attempts` counter never
decreases. -/
theorem session_monotonicity (ops : List SessionOp) :
    ∀ (st : Store), FreshCreates ops st →
    ∀ (k : String) (e e' : SessionEntry),
      List.lookup k st = some e →
      List.lookup k (applyOps ops st) = some e' →
      (e.data.used = true → e'.data.used = true) ∧
      e.data.attempts ≤ e'.data.attempts := by
  induction ops with
  | nil =>
    intro st _ k e e' h1 h2
    have h2' : List.lookup k st = some e' := h2
    rw [h1] at h2'
    cases h2'
    exact ⟨fun hu => hu, Nat.le_refl _⟩
  | cons op rest ih =>
    intro st hv k e e' h1 h2
    obtain ⟨hf, hrest⟩ := hv
    obtain ⟨e₂, hl₂, hu₂, ha₂⟩ := applyOp_mono op st
      (fun sid now hop => by subst hop; exact hf) k e h1
    obtain ⟨hu₃, ha₃⟩ := ih (applyOp op st) hrest k e₂ e' hl₂ h2
    exact ⟨fun hu => hu₃ (hu₂ hu), Nat.le_trans ha₂ ha₃⟩

def c9Entry : SessionEntry :=
  { data := { honeypotField := "_hp_zz", createdAt := 0, used := false,
              attempts := 2 },
    ttl := 600 }

def c9Store : Store := [(sessionKey "zz", c9Entry)]

def c9Ops : List SessionOp :=
  [SessionOp.incr "zz", SessionOp.markUsed "zz" "8.8.8.8" "UA" 50,
   SessionOp.get "zz" 60]

def c9Final : SessionEntry :=
  { data := { honeypotField := "_hp_zz", createdAt := 0,
              lastAccess := some 60, used := true, usedAt := some 50,
              ip := some "8.8.8.8", userAgent := some "UA", attempts := 3 },
    ttl := 600 }

theorem session_monotonicity_witness :
    FreshCreates c9Ops c9Store ∧
    List.lookup (sessionKey "zz") c9Store = some c9Entry ∧
    List.lookup (sessionKey "zz") (applyOps c9Ops c9Store) = some c9Final ∧
    ((c9Entry.data.used = true → c9Final.data.used = true) ∧
     c9Entry.data.attempts ≤ c9Final.data.attempts) :=
  ⟨⟨trivial, trivial, trivial, trivial⟩, rfl, by decide,
   session_monotonicity c9Ops c9Store ⟨trivial, trivial, trivial, trivial⟩
     (sessionKey "zz") c9Entry c9Final rfl (by decide)⟩

end FreeForm
